import Mathlib

/-!
Shallow embedding of `src/input/src/touch.rs` from the piston input library:
the touch data model (`Touch`, `TouchArgs` and its constructors/accessors)
and the blanket `TouchEvent` implementation over the generic event
capability.

Numeric modelling: the Rust code stores `f64` coordinates and pressure
components and computes a square root.  Finite `f64` values are idealized as
exact rationals (`ℚ`) and the square root as `Real.sqrt` on their real
casts.  A second, separate model (`F64`, `TouchArgsF`) keeps the IEEE-754
equality semantics (NaN compares unequal to everything, itself included)
for the one claim about the derived `PartialEq`.
-/

namespace PistonTouch

/-- The `Touch` enum from `touch.rs`: the phase of a touch contact. -/
inductive Touch where
  | Start
  | Move
  | End
  | Cancel
deriving DecidableEq

/-- The `TouchArgs` struct from `touch.rs`: one touch sample.  `f64` fields
are idealized as exact rationals. -/
structure TouchArgs where
  device : Int
  id : Int
  x : ℚ
  y : ℚ
  z : ℚ
  px : ℚ
  py : ℚ
  pz : ℚ
  is_3d : Bool
  touch : Touch
deriving DecidableEq

/-- `TouchArgs::new`: creates arguments for 2D touch (the `[f64; 2]`
position array is modelled as a pair). -/
def TouchArgs.new (device id : Int) (pos : ℚ × ℚ) (pressure : ℚ)
    (touch : Touch) : TouchArgs :=
  { device := device
    id := id
    x := pos.1
    y := pos.2
    z := 0
    is_3d := false
    px := 0
    py := 0
    pz := pressure
    touch := touch }

/-- `TouchArgs::new_3d`: creates arguments for 3D touch (the `[f64; 3]`
arrays are modelled as triples). -/
def TouchArgs.new_3d (device id : Int) (pos : ℚ × ℚ × ℚ)
    (pressure : ℚ × ℚ × ℚ) (touch : Touch) : TouchArgs :=
  { device := device
    id := id
    x := pos.1
    y := pos.2.1
    z := pos.2.2
    is_3d := true
    px := pressure.1
    py := pressure.2.1
    pz := pressure.2.2
    touch := touch }

/-- `TouchArgs::position`: the position of the touch in 2D. -/
def TouchArgs.position (t : TouchArgs) : ℚ × ℚ :=
  (t.x, t.y)

/-- `TouchArgs::position_3d`: the position of the touch in 3D. -/
def TouchArgs.position_3d (t : TouchArgs) : ℚ × ℚ × ℚ :=
  (t.x, t.y, t.z)

/-- `TouchArgs::pressure`: the pressure magnitude,
`(px*px + py*py + pz*pz).sqrt()`, idealized over the reals. -/
noncomputable def TouchArgs.pressure (t : TouchArgs) : ℝ :=
  Real.sqrt ((t.px * t.px + t.py * t.py + t.pz * t.pz : ℚ) : ℝ)

/-- `TouchArgs::pressure_3d`: the pressure vector in 3D. -/
def TouchArgs.pressure_3d (t : TouchArgs) : ℚ × ℚ × ℚ :=
  (t.px, t.py, t.pz)

/-- Euclidean magnitude of a pressure vector, as the spec uses it
(`|pressure_vec3|`). -/
noncomputable def magnitude (v : ℚ × ℚ × ℚ) : ℝ :=
  Real.sqrt ((v.1 * v.1 + v.2.1 * v.2.1 + v.2.2 * v.2.2 : ℚ) : ℝ)

/-- Modelled from the spec: the process-wide event tag (`EventId` in the
surrounding library, not under `src/`): a stable symbolic/numeric
identifier of the payload kind an event container holds. -/
structure EventId where
  code : Nat
deriving DecidableEq

/-- Modelled from the spec: the `TOUCH` tag constant (not under `src/`);
its concrete value is arbitrary but fixed, and distinct from every other
input-kind tag. -/
def TOUCH : EventId := ⟨14⟩

/-- Modelled from the spec: the type-erased payload reference (`&Any` in
the source).  The `touchArgs` variant holds a concrete `TouchArgs`; the
`other` variant stands for a payload of any different concrete type,
identified by its type name. -/
inductive AnyPayload where
  | touchArgs (args : TouchArgs)
  | other (typeName : String)
deriving DecidableEq

/-- `downcast_ref::<TouchArgs>()` on the type-erased payload: succeeds
exactly on a payload whose concrete type is `TouchArgs`. -/
def downcastTouchArgs : AnyPayload → Option TouchArgs
  | .touchArgs args => some args
  | .other _ => none

/-- Modelled from the spec: the generic-event capability (spec section 4.2,
the `GenericEvent` trait, not under `src/`): `event_id` reports the tag of
the currently held payload, `with_args` hands a type-erased reference to
the payload to a visitor and returns the visitor's result, `from_args`
builds a new container of the same concrete type from a tag, a payload and
an old event, or `none` if the container type cannot represent that tag. -/
class GenericEvent (T : Type) : Type 1 where
  event_id : T → EventId
  with_args : {U : Type} → T → (AnyPayload → U) → U
  from_args : EventId → AnyPayload → T → Option T

/-- Modelled from the spec: the behavioural contract of spec section 4.2
for conforming containers — a container built by `from_args tag p old`
carries exactly the tag `tag` and the payload `p` (its `event_id` reports
`tag`, and `with_args` applies the visitor to `p`). -/
class LawfulGenericEvent (T : Type) [GenericEvent T] : Prop where
  from_args_event_id : ∀ (tag : EventId) (p : AnyPayload) (old e : T),
    GenericEvent.from_args tag p old = some e → GenericEvent.event_id e = tag
  from_args_with_args : ∀ (tag : EventId) (p : AnyPayload) (old e : T)
    (U : Type) (f : AnyPayload → U),
    GenericEvent.from_args tag p old = some e →
    GenericEvent.with_args e f = f p

/-- Outcome of a call that may `panic!`: either a normal value or an
aborted process carrying the panic message. -/
inductive PanicOr (α : Type) where
  | panicked (msg : String)
  | ok (val : α)
deriving DecidableEq

/-- `TouchEvent::from_touch_args` from the blanket
`impl<T> TouchEvent for T where T: GenericEvent` in `touch.rs`:
`GenericEvent::from_args(TOUCH, args as &Any, old_event)`. -/
def TouchEvent.from_touch_args {T : Type} [GenericEvent T]
    (args : TouchArgs) (old_event : T) : Option T :=
  GenericEvent.from_args TOUCH (AnyPayload.touchArgs args) old_event

/-- `TouchEvent::touch` from the blanket impl in `touch.rs`: return `None`
when the tag is not `TOUCH`; otherwise visit the type-erased payload,
downcast it to `TouchArgs` and apply `f`, panicking
(`"Expected TouchArgs"`) when the downcast fails. -/
def TouchEvent.touch {T U : Type} [GenericEvent T] (e : T)
    (f : TouchArgs → U) : PanicOr (Option U) :=
  if GenericEvent.event_id e ≠ TOUCH then
    PanicOr.ok none
  else
    GenericEvent.with_args e (fun any =>
      match downcastTouchArgs any with
      | some args => PanicOr.ok (some (f args))
      | none => PanicOr.panicked "Expected TouchArgs")

/-- `TouchEvent::touch_args`, the trait's provided method:
`self.touch(|args| args.clone())` (cloning a value type is the
identity). -/
def TouchEvent.touch_args {T : Type} [GenericEvent T] (e : T) :
    PanicOr (Option TouchArgs) :=
  TouchEvent.touch e (fun args => args)

/-- A minimal concrete container conforming to the generic-event
capability, used to instantiate the generic theorems: it stores exactly a
tag and a type-erased payload. -/
inductive TaggedEvent where
  | mk (tag : EventId) (payload : AnyPayload)
deriving DecidableEq

/-- The tag stored in a `TaggedEvent`. -/
def TaggedEvent.tag : TaggedEvent → EventId
  | .mk t _ => t

/-- The payload stored in a `TaggedEvent`. -/
def TaggedEvent.payload : TaggedEvent → AnyPayload
  | .mk _ p => p

instance : GenericEvent TaggedEvent where
  event_id e := e.tag
  with_args e f := f e.payload
  from_args tag p _old := some (TaggedEvent.mk tag p)

instance : LawfulGenericEvent TaggedEvent where
  from_args_event_id := by
    intro tag p old e h
    cases h
    rfl
  from_args_with_args := by
    intro tag p old e U f h
    cases h
    rfl

/-- An IEEE-754 double as far as equality is concerned: a (finite, exact)
numeric value, or NaN.  Used only to settle the claim about the derived
`PartialEq` of `TouchArgs`, whose `f64` comparisons follow IEEE semantics:
NaN compares unequal to everything, itself included. -/
inductive F64 where
  | num (q : ℚ)
  | nan
deriving DecidableEq

/-- IEEE `==` on doubles: `NaN == x` and `x == NaN` are false; two numeric
values compare by value. -/
def F64.ieeeEq : F64 → F64 → Bool
  | .num a, .num b => a == b
  | _, _ => false

/-- The `TouchArgs` struct again, with its six `f64` fields kept as `F64`
so that the derived `PartialEq` can be modelled with IEEE equality. -/
structure TouchArgsF where
  device : Int
  id : Int
  x : F64
  y : F64
  z : F64
  px : F64
  py : F64
  pz : F64
  is_3d : Bool
  touch : Touch
deriving DecidableEq

/-- The `#[derive(PartialEq)]` implementation on `TouchArgs`: conjunction
of the field-by-field comparisons, with the `f64` fields compared by IEEE
`==`. -/
def TouchArgsF.partialEq (a b : TouchArgsF) : Bool :=
  a.device == b.device && a.id == b.id &&
  F64.ieeeEq a.x b.x && F64.ieeeEq a.y b.y && F64.ieeeEq a.z b.z &&
  F64.ieeeEq a.px b.px && F64.ieeeEq a.py b.py && F64.ieeeEq a.pz b.pz &&
  a.is_3d == b.is_3d && a.touch == b.touch

/-- A `TouchArgsF` has no NaN field. -/
def TouchArgsF.noNaN (t : TouchArgsF) : Prop :=
  t.x ≠ F64.nan ∧ t.y ≠ F64.nan ∧ t.z ≠ F64.nan ∧
  t.px ≠ F64.nan ∧ t.py ≠ F64.nan ∧ t.pz ≠ F64.nan

instance (t : TouchArgsF) : Decidable t.noNaN := by
  unfold TouchArgsF.noNaN
  infer_instance

/-- Claim C4: `TouchArgs::new(device, id, pos, pressure, phase)` yields a
value whose `position()` is `pos`, whose `is_3d` is `false`, whose `z`,
`px` and `py` are all `0`, and whose `pz` is the pressure scalar — so
every 2D-constructed value satisfies the `is_3d == false` invariant. -/
theorem new_2d_fields (device id : Int) (pos : ℚ × ℚ) (pressure : ℚ)
    (phase : Touch) :
    (TouchArgs.new device id pos pressure phase).position = pos ∧
    (TouchArgs.new device id pos pressure phase).is_3d = false ∧
    (TouchArgs.new device id pos pressure phase).z = 0 ∧
    (TouchArgs.new device id pos pressure phase).px = 0 ∧
    (TouchArgs.new device id pos pressure phase).py = 0 ∧
    (TouchArgs.new device id pos pressure phase).pz = pressure := by
  refine ⟨?_, rfl, rfl, rfl, rfl, rfl⟩
  simp [TouchArgs.new, TouchArgs.position]

/-- Claim C5: for `|pressure_vec3| ≤ 1`,
`TouchArgs::new_3d(device, id, pos3d, pressure_vec3, phase)` yields a
value whose `position_3d()` is `pos3d`, whose `pressure_3d()` is
`pressure_vec3`, whose `pressure()` is the Euclidean magnitude
`|pressure_vec3|`, and whose `is_3d` is `true`. -/
theorem new_3d_spec (device id : Int) (pos pvec : ℚ × ℚ × ℚ)
    (phase : Touch) (h : magnitude pvec ≤ 1) :
    (TouchArgs.new_3d device id pos pvec phase).position_3d = pos ∧
    (TouchArgs.new_3d device id pos pvec phase).pressure_3d = pvec ∧
    (TouchArgs.new_3d device id pos pvec phase).pressure = magnitude pvec ∧
    (TouchArgs.new_3d device id pos pvec phase).is_3d = true := by
  refine ⟨?_, ?_, rfl, rfl⟩ <;>
    simp [TouchArgs.new_3d, TouchArgs.position_3d, TouchArgs.pressure_3d]

/-- Witness for C5 at the concrete input
`new_3d(0, 0, (0,0,0), (0,0,1), Start)`: the pressure vector has
magnitude `1 ≤ 1` and `pressure()` equals that magnitude. -/
theorem new_3d_spec_witness :
    magnitude (0, 0, 1) ≤ 1 ∧
    (TouchArgs.new_3d 0 0 (0, 0, 0) (0, 0, 1) Touch.Start).pressure =
      magnitude (0, 0, 1) := by
  have h : magnitude (0, 0, 1) ≤ 1 := by
    unfold magnitude
    norm_num [Real.sqrt_one]
  exact ⟨h, (new_3d_spec 0 0 (0, 0, 0) (0, 0, 1) Touch.Start h).2.2.1⟩

/-- Claim C6: `pressure()` is the Euclidean norm of `(px, py, pz)`; for a
2D sample with pressure scalar `p` it equals `|p|` (exactly, in the
idealized arithmetic), and on the concrete example
`new(0, 0, (0,0), 1, Start)` it equals `1`. -/
theorem pressure_spec :
    (∀ t : TouchArgs,
      t.pressure =
        Real.sqrt ((t.px * t.px + t.py * t.py + t.pz * t.pz : ℚ) : ℝ)) ∧
    (∀ (device id : Int) (pos : ℚ × ℚ) (p : ℚ) (phase : Touch),
      (TouchArgs.new device id pos p phase).pressure = |(p : ℝ)|) ∧
    (TouchArgs.new 0 0 (0, 0) 1 Touch.Start).pressure = 1 := by
  have h2 : ∀ (device id : Int) (pos : ℚ × ℚ) (p : ℚ) (phase : Touch),
      (TouchArgs.new device id pos p phase).pressure = |(p : ℝ)| := by
    intro device id pos p phase
    simp only [TouchArgs.pressure, TouchArgs.new]
    push_cast
    rw [show (0 : ℝ) * 0 + 0 * 0 + (p : ℝ) * (p : ℝ) = (p : ℝ) ^ 2 by ring]
    exact Real.sqrt_sq_eq_abs _
  refine ⟨fun t => rfl, h2, ?_⟩
  rw [h2 0 0 (0, 0) 1 Touch.Start]
  norm_num

/-- Claim C9: neither constructor validates the pressure-magnitude
contract: `new_3d` stores any pressure vector unchanged (so `pressure()`
can exceed `1`, e.g. it is `2 > 1` on the vector `(0,0,2)`), and `new`
stores any pressure scalar unchanged in `pz`. -/
theorem constructors_unvalidated :
    (∀ (device id : Int) (pos pvec : ℚ × ℚ × ℚ) (phase : Touch),
      (TouchArgs.new_3d device id pos pvec phase).pressure_3d = pvec) ∧
    (∀ (device id : Int) (pos : ℚ × ℚ) (p : ℚ) (phase : Touch),
      (TouchArgs.new device id pos p phase).pz = p) ∧
    1 < (TouchArgs.new_3d 0 0 (0, 0, 0) (0, 0, 2) Touch.Start).pressure := by
  refine ⟨?_, fun device id pos p phase => rfl, ?_⟩
  · intro device id pos pvec phase
    simp [TouchArgs.new_3d, TouchArgs.pressure_3d]
  · simp only [TouchArgs.pressure, TouchArgs.new_3d]
    rw [show ((0 * 0 + 0 * 0 + 2 * 2 : ℚ) : ℝ) = (2 : ℝ) ^ 2 by norm_num]
    rw [Real.sqrt_sq (by norm_num : (0 : ℝ) ≤ 2)]
    norm_num

/-- A concrete touch sample used by the witnesses. -/
def sampleArgs : TouchArgs := TouchArgs.new 0 0 (0, 0) 1 Touch.Start

/-- Claim C7: `from_touch_args(args, old_event)` is exactly
`GenericEvent::from_args(TOUCH, args as &Any, old_event)`. -/
theorem from_touch_args_delegates {T : Type} [GenericEvent T]
    (args : TouchArgs) (old_event : T) :
    TouchEvent.from_touch_args args old_event =
      GenericEvent.from_args TOUCH (AnyPayload.touchArgs args) old_event :=
  rfl

/-- Claim C8: `touch_args()` is exactly `touch(|args| args.clone())`,
including the abort behaviour (the two sides are the same `PanicOr`
value). -/
theorem touch_args_eq_touch {T : Type} [GenericEvent T] (e : T) :
    TouchEvent.touch_args e = TouchEvent.touch e (fun args => args) :=
  rfl

/-- Claim C2: on an event whose `event_id()` is not `TOUCH`, `touch`
returns `None` for every visitor, and the result does not depend on the
visitor (it is never invoked), whatever payload the container stores. -/
theorem touch_non_touch_none {T U : Type} [GenericEvent T] (e : T)
    (h : GenericEvent.event_id e ≠ TOUCH) (f : TouchArgs → U) :
    TouchEvent.touch e f = PanicOr.ok none ∧
    ∀ g : TouchArgs → U, TouchEvent.touch e f = TouchEvent.touch e g := by
  have key : ∀ g : TouchArgs → U, TouchEvent.touch e g = PanicOr.ok none := by
    intro g
    unfold TouchEvent.touch
    rw [if_pos h]
  exact ⟨key f, fun g => (key f).trans (key g).symm⟩

/-- Witness for C2: a container holding a non-touch payload under a
non-touch tag returns `None` from `touch`. -/
theorem touch_non_touch_none_witness :
    TouchEvent.touch (TaggedEvent.mk ⟨0⟩ (AnyPayload.other "MotionArgs"))
      (fun _ => true) = PanicOr.ok none :=
  (touch_non_touch_none (TaggedEvent.mk ⟨0⟩ (AnyPayload.other "MotionArgs"))
    (by decide) (fun _ => true)).1

/-- Claim C3: on an event whose `event_id()` is `TOUCH` but whose stored
payload does not downcast to `TouchArgs`, `touch` panics
(`"Expected TouchArgs"`) for every visitor: it returns neither `None` nor
`Some`, and the result does not depend on the visitor (it is never
invoked). -/
theorem touch_mismatch_panics {T U : Type} [GenericEvent T] (e : T)
    (p : AnyPayload) (htag : GenericEvent.event_id e = TOUCH)
    (hw : ∀ (V : Type) (g : AnyPayload → V), GenericEvent.with_args e g = g p)
    (hdc : downcastTouchArgs p = none) (f : TouchArgs → U) :
    TouchEvent.touch e f = PanicOr.panicked "Expected TouchArgs" ∧
    ∀ g : TouchArgs → U, TouchEvent.touch e f = TouchEvent.touch e g := by
  have key : ∀ g : TouchArgs → U,
      TouchEvent.touch e g = PanicOr.panicked "Expected TouchArgs" := by
    intro g
    unfold TouchEvent.touch
    rw [if_neg (fun hne => hne htag), hw]
    simp only [hdc]
  exact ⟨key f, fun g => (key f).trans (key g).symm⟩

/-- Witness for C3: a container claiming the `TOUCH` tag while storing a
payload of a different concrete type makes `touch` panic. -/
theorem touch_mismatch_panics_witness :
    TouchEvent.touch (TaggedEvent.mk TOUCH (AnyPayload.other "ResizeArgs"))
      (fun _ => true) = PanicOr.panicked "Expected TouchArgs" :=
  (touch_mismatch_panics (TaggedEvent.mk TOUCH (AnyPayload.other "ResizeArgs"))
    (AnyPayload.other "ResizeArgs") rfl (fun _ _ => rfl) rfl (fun _ => true)).1

/-- Claim C1: for any container type satisfying the generic-event
contract, building an event with `from_touch_args(args, old)` and, when
that succeeds, extracting the payload with `touch(|t| t.clone())` yields
`Some(args)` back. -/
theorem from_touch_args_touch_roundtrip {T : Type} [GenericEvent T]
    [LawfulGenericEvent T] (args : TouchArgs) (old_event e : T)
    (h : TouchEvent.from_touch_args args old_event = some e) :
    TouchEvent.touch e (fun t => t) = PanicOr.ok (some args) := by
  have htag : GenericEvent.event_id e = TOUCH :=
    LawfulGenericEvent.from_args_event_id TOUCH (AnyPayload.touchArgs args)
      old_event e h
  unfold TouchEvent.touch
  rw [if_neg (fun hne => hne htag),
    LawfulGenericEvent.from_args_with_args TOUCH (AnyPayload.touchArgs args)
      old_event e _ _ h]
  rfl

/-- Witness for C1: the round trip at the concrete sample above, on the
concrete conforming container. -/
theorem from_touch_args_touch_roundtrip_witness :
    TouchEvent.from_touch_args sampleArgs
        (TaggedEvent.mk TOUCH (AnyPayload.touchArgs sampleArgs)) =
      some (TaggedEvent.mk TOUCH (AnyPayload.touchArgs sampleArgs)) ∧
    TouchEvent.touch
        (TaggedEvent.mk TOUCH (AnyPayload.touchArgs sampleArgs))
        (fun t => t) = PanicOr.ok (some sampleArgs) :=
  ⟨rfl, from_touch_args_touch_roundtrip sampleArgs
    (TaggedEvent.mk TOUCH (AnyPayload.touchArgs sampleArgs))
    (TaggedEvent.mk TOUCH (AnyPayload.touchArgs sampleArgs)) rfl⟩

/-- IEEE equality agrees with propositional equality on non-NaN values. -/
theorem F64.ieeeEq_eq_true_of_ne_nan {u v : F64} (hu : u ≠ F64.nan)
    (hv : v ≠ F64.nan) : F64.ieeeEq u v = true ↔ u = v := by
  cases u with
  | nan => exact absurd rfl hu
  | num a =>
    cases v with
    | nan => exact absurd rfl hv
    | num b => simp [F64.ieeeEq]

/-- Claim C10: the derived `PartialEq` of `TouchArgs` is not reflexive —
any value with a NaN field compares unequal to itself — while on values
with no NaN field it holds exactly when all ten fields agree. -/
theorem partialEq_nan_irrefl_and_structural :
    (∃ t : TouchArgsF, TouchArgsF.partialEq t t = false) ∧
    (∀ a b : TouchArgsF, a.noNaN → b.noNaN →
      (TouchArgsF.partialEq a b = true ↔
        (a.device = b.device ∧ a.id = b.id ∧ a.x = b.x ∧ a.y = b.y ∧
         a.z = b.z ∧ a.px = b.px ∧ a.py = b.py ∧ a.pz = b.pz ∧
         a.is_3d = b.is_3d ∧ a.touch = b.touch))) := by
  constructor
  · refine ⟨⟨0, 0, F64.nan, F64.num 0, F64.num 0, F64.num 0, F64.num 0,
      F64.num 0, false, Touch.Start⟩, ?_⟩
    simp [TouchArgsF.partialEq, F64.ieeeEq]
  · intro a b ha hb
    obtain ⟨hax, hay, haz, hapx, hapy, hapz⟩ := ha
    obtain ⟨hbx, hby, hbz, hbpx, hbpy, hbpz⟩ := hb
    simp only [TouchArgsF.partialEq, Bool.and_eq_true, beq_iff_eq,
      F64.ieeeEq_eq_true_of_ne_nan hax hbx,
      F64.ieeeEq_eq_true_of_ne_nan hay hby,
      F64.ieeeEq_eq_true_of_ne_nan haz hbz,
      F64.ieeeEq_eq_true_of_ne_nan hapx hbpx,
      F64.ieeeEq_eq_true_of_ne_nan hapy hbpy,
      F64.ieeeEq_eq_true_of_ne_nan hapz hbpz]
    tauto

/-- Witness for C10: a concrete NaN-free value compares equal to itself
under the derived `PartialEq`. -/
theorem partialEq_structural_witness :
    TouchArgsF.partialEq
      ⟨0, 0, F64.num 0, F64.num 0, F64.num 0, F64.num 0, F64.num 0,
        F64.num 0, false, Touch.Start⟩
      ⟨0, 0, F64.num 0, F64.num 0, F64.num 0, F64.num 0, F64.num 0,
        F64.num 0, false, Touch.Start⟩ = true :=
  (partialEq_nan_irrefl_and_structural.2 _ _
    (by simp [TouchArgsF.noNaN]) (by simp [TouchArgsF.noNaN])).mpr
    ⟨rfl, rfl, rfl, rfl, rfl, rfl, rfl, rfl, rfl, rfl⟩

end PistonTouch
